import Mathlib

/-!
Verification of the build-matrix filtering and package-reference resolution
logic of conan/build.py (a Conan continuous-integration driver script).

The script reads environment variables, composes a package reference string
"name/version", optionally raises on a misconfiguration, and filters the
build matrix produced by an external generator before handing it to the
external runner.  The definitions below are a shallow embedding of that
script, translated line by line; theorems about them follow.
-/

/-- Outcome of a Python exception that the script can raise.
a different error exists for each raising site:
`attributeError` models the AttributeError raised by
`tag_version.replace("v", "")` when `tag_version` is None;
`keyError` models the KeyError raised by the dictionary lookup
`options["<name>:shared"]` when the key is missing;
`raised msg` models the explicit `raise Exception(msg)` of the guard
(the specification's ConfigurationError class). -/
inductive PyError where
  | attributeError : PyError
  | keyError : PyError
  | raised : String → PyError
deriving DecidableEq, Repr

deriving instance DecidableEq for Except

/-- Whether an error is the specification's ConfigurationError: only the
explicitly raised guard exception carries a descriptive configuration
message; AttributeError and KeyError do not. -/
def PyError.isConfigurationError : PyError → Bool
  | .raised _ => true
  | _ => false

/-- The environment variables the resolution/filter logic reads.
`none` models an unset variable, `some s` a variable set to the string
`s` (possibly empty: in Python, os.getenv returns "" for a variable set
to the empty string, not the default). -/
structure Env where
  CONAN_PACKAGE_VERSION : Option String := none
  TRAVIS_TAG : Option String := none
  CONAN_PACKAGE_NAME : Option String := none
  CONAN_DISABLE_SHARED_BUILD : Option String := none
deriving DecidableEq, Repr

/-- `os.getenv(var, default)`: the variable's value when set, else the
default. -/
def getenv (v : Option String) (default : String) : String := v.getD default

/-- `tag_version = os.getenv("CONAN_PACKAGE_VERSION", os.getenv("TRAVIS_TAG"))`:
the first variable when set, otherwise the second; `none` when both are
unset (Python None). -/
def tag_version (e : Env) : Option String :=
  match e.CONAN_PACKAGE_VERSION with
  | some s => some s
  | none => e.TRAVIS_TAG

/-- Python `s.replace("v", "")`: removes every occurrence of the
one-character substring "v", i.e. filters the character 'v' out of the
string. -/
def replace_v (s : String) : String := ⟨s.data.filter (fun c => c != 'v')⟩

/-- `package_version = tag_version.replace("v", "")`: strips every "v"
from the raw tag; when `tag_version` is None the attribute access on
None raises AttributeError. -/
def package_version (e : Env) : Except PyError String :=
  match tag_version e with
  | none => .error .attributeError
  | some tv => .ok (replace_v tv)

/-- The sentinel placeholder package name of the script. -/
def package_name_unset : String := "SET-CONAN_PACKAGE_NAME-OR-CONAN_REFERENCE"

/-- `package_name = os.getenv("CONAN_PACKAGE_NAME", package_name_unset)`. -/
def package_name (e : Env) : String :=
  getenv e.CONAN_PACKAGE_NAME package_name_unset

/-- `reference = "{}/{}".format(package_name, package_version)` (the name,
a slash, and the resolved version); propagates the AttributeError of a
missing version source. -/
def reference (e : Env) : Except PyError String :=
  (package_version e).map (fun pv => package_name e ++ "/" ++ pv)

/-- `disable_shared = os.getenv("CONAN_DISABLE_SHARED_BUILD", "False")`. -/
def disable_shared (e : Env) : String :=
  getenv e.CONAN_DISABLE_SHARED_BUILD "False"

/-- The message of the guard's `raise Exception(...)`. -/
def shared_guard_message : String :=
  "CONAN_DISABLE_SHARED_BUILD: True is only supported when you define CONAN_PACKAGE_NAME"

/-- The guard
`if disable_shared == "True" and package_name == package_name_unset: raise Exception(...)`. -/
def shared_guard (e : Env) : Except PyError Unit :=
  if disable_shared e = "True" ∧ package_name e = package_name_unset then
    .error (.raised shared_guard_message)
  else .ok ()

/-- Coordinate resolution: the script's straight-line prefix, in source
order — compute the reference (which raises AttributeError when the
version source is missing), then run the sentinel-name guard, and yield
the composed reference string. -/
def resolve_coordinate (e : Env) : Except PyError String :=
  match reference e with
  | .error err => .error err
  | .ok r =>
    match shared_guard e with
    | .error err => .error err
    | .ok _ => .ok r

/-- One element of `builder.items`: the 5-tuple
`(settings, options, env_vars, build_requires, reference)` produced by the
external generator.  Settings and environment variables are string-valued
mappings, options a boolean-valued mapping (only the shared flag is ever
read), build requirements a list, the reference a string. -/
structure BuildConfig where
  settings : List (String × String)
  options : List (String × Bool)
  env_vars : List (String × String)
  build_requires : List String
  reference : String
deriving DecidableEq, Repr

/-- One element the loop appends to `filtered_builds`: the 4-element list
`[settings, options, env_vars, build_requires]` — note the absence of a
reference component. -/
structure FilteredConfig where
  settings : List (String × String)
  options : List (String × Bool)
  env_vars : List (String × String)
  build_requires : List String
deriving DecidableEq, Repr

/-- The 4-element list the loop body builds from a generated 5-tuple:
`[settings, options, env_vars, build_requires]`. -/
def dropReference (b : BuildConfig) : FilteredConfig :=
  ⟨b.settings, b.options, b.env_vars, b.build_requires⟩

/-- A heterogeneous view of a tuple component, used to compare the
5-tuples of `builder.items` with the 4-element lists of
`filtered_builds` the way Python compares its heterogeneous sequences. -/
inductive Component where
  | settingsC : List (String × String) → Component
  | optionsC : List (String × Bool) → Component
  | envVarsC : List (String × String) → Component
  | buildRequiresC : List String → Component
  | referenceC : String → Component
deriving DecidableEq, Repr

/-- The component sequence of a generated 5-tuple. -/
def BuildConfig.components (b : BuildConfig) : List Component :=
  [.settingsC b.settings, .optionsC b.options, .envVarsC b.env_vars,
   .buildRequiresC b.build_requires, .referenceC b.reference]

/-- The component sequence of a retained 4-element list. -/
def FilteredConfig.components (f : FilteredConfig) : List Component :=
  [.settingsC f.settings, .optionsC f.options, .envVarsC f.env_vars,
   .buildRequiresC f.build_requires]

/-- Python dictionary lookup `d[k]` as an option: `none` models the
KeyError case. -/
def dictGet (d : List (String × Bool)) (k : String) : Option Bool :=
  (d.find? (fun p => p.1 == k)).map Prod.snd

/-- The loop body's condition
`disable_shared == "False" or not options["{}:shared".format(package_name)]`,
with Python's short-circuit `or`: when `disable_shared` equals "False"
the option lookup is never evaluated; otherwise the lookup runs and a
missing key raises KeyError. -/
def retains (ds pn : String) (b : BuildConfig) : Except PyError Bool :=
  if ds = "False" then .ok true
  else
    match dictGet b.options (pn ++ ":shared") with
    | none => .error .keyError
    | some sh => .ok (!sh)

/-- The filtering loop: for each generated 5-tuple in order, append the
4-element form when the retention condition holds; a raised exception
aborts the whole pass. -/
def filtered_builds (ds pn : String) : List BuildConfig → Except PyError (List FilteredConfig)
  | [] => .ok []
  | b :: rest =>
    match retains ds pn b with
    | .error err => .error err
    | .ok true => (filtered_builds ds pn rest).map (fun l => dropReference b :: l)
    | .ok false => filtered_builds ds pn rest

/-- The retention pass of the same loop viewed on whole configurations:
it keeps or drops each generated 5-tuple by the loop's condition
(`retains`) without re-shaping it.  `filtered_builds` is exactly this
pass followed by the per-element projection to the 4-element form
(theorem `filtered_builds_eq_retention`). -/
def applyRetention (ds pn : String) : List BuildConfig → Except PyError (List BuildConfig)
  | [] => .ok []
  | b :: rest =>
    match retains ds pn b with
    | .error err => .error err
    | .ok true => (applyRetention ds pn rest).map (fun l => b :: l)
    | .ok false => applyRetention ds pn rest

/-- The script end to end on the pre-flight side: resolve the coordinate
(version strip, name fallback, guard) and then filter the externally
generated matrix.  The matrix is a parameter because its generation is
owned by the external packager; the script consumes it only after the
resolution steps succeed. -/
def script (e : Env) (items : List BuildConfig) : Except PyError (List FilteredConfig) :=
  match resolve_coordinate e with
  | .error err => .error err
  | .ok _ => filtered_builds (disable_shared e) (package_name e) items

/-! ## Helper lemmas -/

/-- A string containing no 'v' character is unchanged by the strip. -/
theorem replace_v_of_no_v (s : String) (h : ∀ c ∈ s.data, c ≠ 'v') :
    replace_v s = s := by
  unfold replace_v
  have hf : s.data.filter (fun c => c != 'v') = s.data := by
    rw [List.filter_eq_self]
    intro a ha
    simpa using h a ha
  rw [hf]

/-- Stripping a tag that is 'v' followed by a v-free remainder yields the
remainder. -/
theorem replace_v_v_append (rest : String) (h : ∀ c ∈ rest.data, c ≠ 'v') :
    replace_v ("v" ++ rest) = rest := by
  unfold replace_v
  rw [String.data_append]
  show String.mk (List.filter (fun c => c != 'v') ('v' :: rest.data)) = rest
  rw [List.filter_cons_of_neg (by simp)]
  have hf : rest.data.filter (fun c => c != 'v') = rest.data := by
    rw [List.filter_eq_self]
    intro a ha
    simpa using h a ha
  rw [hf]

/-- When the version source is present, the composed reference is the
package name, a slash, and the stripped version. -/
theorem reference_eq (e : Env) (tv : String) (htv : tag_version e = some tv) :
    reference e = .ok (package_name e ++ "/" ++ replace_v tv) := by
  simp [reference, package_version, htv, Except.map]

/-! ## C1 — version-prefix stripping -/

/-- C1 (counterexample): the claim says a raw tag "refs/tags/v3.2.0" with
name "entt" resolves to the coordinate "entt/3.2.0"; the code only removes
"v" characters, so the coordinate is "entt/refs/tags/3.2.0". -/
theorem c1_counterexample :
    reference ⟨none, some "refs/tags/v3.2.0", some "entt", none⟩
      = .ok "entt/refs/tags/3.2.0" ∧
    ("entt/refs/tags/3.2.0" : String) ≠ "entt/3.2.0" := by
  refine ⟨rfl, by decide⟩

/-- C1 (amended): for a raw tag that is the letter "v" followed by a
v-free semantic version, resolution removes the leading "v" (the code
removes every "v" character, which here is just that one) and the
composed coordinate is the name, a slash, and the version; in particular
name "entt" with tag "v3.2.0" gives coordinate "entt/3.2.0". -/
theorem c1_version_strip (rest : String) (hrest : ∀ c ∈ rest.data, c ≠ 'v')
    (e : Env) (hname : e.CONAN_PACKAGE_NAME = some "entt")
    (htag : tag_version e = some ("v" ++ rest)) :
    reference e = .ok ("entt/" ++ rest) := by
  rw [reference_eq e ("v" ++ rest) htag, replace_v_v_append rest hrest]
  have hpn : package_name e = "entt" := by
    simp [package_name, getenv, hname]
  rw [hpn]
  have hs : ("entt" ++ "/" ++ rest : String) = "entt/" ++ rest := by
    have : ("entt" ++ "/" : String) = "entt/" := by decide
    rw [String.append_assoc] at *
    rw [← String.append_assoc, this]
  rw [hs]

/-- C1 (witness): the amended statement at the scenario's input. -/
theorem c1_witness :
    reference ⟨none, some "v3.2.0", some "entt", none⟩ = .ok "entt/3.2.0" := by
  have h := c1_version_strip "3.2.0" (by decide)
    ⟨none, some "v3.2.0", some "entt", none⟩ rfl (by decide)
  simpa using h

/-! ## C2 — the retention predicate -/

/-- C2: with a boolean-valued flag ("True" or "False") and the shared
option present for the target package, a configuration is retained iff
the flag is "False" or its shared option is false, and removed iff the
flag is "True" and its shared option is true. -/
theorem c2_retention (ds pn : String) (hds : ds = "True" ∨ ds = "False")
    (b : BuildConfig) (sh : Bool)
    (hsh : dictGet b.options (pn ++ ":shared") = some sh) :
    (retains ds pn b = .ok true ↔ (ds = "False" ∨ sh = false)) ∧
    (retains ds pn b = .ok false ↔ (ds = "True" ∧ sh = true)) := by
  rcases hds with h | h <;> subst h
  · constructor
    · unfold retains
      rw [if_neg (by decide), hsh]
      cases sh <;> decide
    · unfold retains
      rw [if_neg (by decide), hsh]
      cases sh <;> decide
  · constructor
    · unfold retains
      rw [if_pos rfl]
      cases sh <;> decide
    · unfold retains
      rw [if_pos rfl]
      cases sh <;> decide

/-- A concrete configuration whose shared option for package "entt" is
true. -/
def cfgShared : BuildConfig :=
  ⟨[("os", "Linux")], [("entt:shared", true)], [], [], "entt/3.2.0"⟩

/-- C2 (witness): the retention equivalences at flag "True" and a
shared=true configuration. -/
theorem c2_witness :
    (retains "True" "entt" cfgShared = .ok true ↔
      (("True" : String) = "False" ∨ true = false)) ∧
    (retains "True" "entt" cfgShared = .ok false ↔
      (("True" : String) = "True" ∧ true = true)) :=
  c2_retention "True" "entt" (Or.inl rfl) cfgShared true (by decide)

/-! ## C3 — the sentinel-name guard -/

/-- C3 (counterexample): the claim covers "empty/unset" name sources and
says an explicitly set name never trips the guard.  Both parts fail: a
name source set to the empty string does not fall back to the sentinel,
so resolution with the flag "True" succeeds (with name ""), and a name
source explicitly set to the sentinel string itself does trip the guard. -/
theorem c3_counterexample :
    resolve_coordinate ⟨some "1.0.0", none, some "", some "True"⟩ = .ok "/1.0.0" ∧
    resolve_coordinate
        ⟨some "1.0.0", none, some "SET-CONAN_PACKAGE_NAME-OR-CONAN_REFERENCE", some "True"⟩
      = .error (.raised shared_guard_message) := by
  refine ⟨rfl, by decide⟩

/-- C3 (amended): with the version source present, an unset package-name
source (falling back to the sentinel) makes resolution fail with the
guard's ConfigurationError when the shared-build-disabled flag is "True"
and succeed with the sentinel name when it is "False"; a package name
explicitly set to any value other than the sentinel never fails on this
guard. -/
theorem c3_sentinel_guard (e : Env) (tv : String) (htv : tag_version e = some tv) :
    (e.CONAN_PACKAGE_NAME = none → disable_shared e = "True" →
      resolve_coordinate e = .error (.raised shared_guard_message)) ∧
    (e.CONAN_PACKAGE_NAME = none → disable_shared e = "False" →
      resolve_coordinate e = .ok (package_name_unset ++ "/" ++ replace_v tv)) ∧
    (∀ n, e.CONAN_PACKAGE_NAME = some n → n ≠ package_name_unset →
      resolve_coordinate e = .ok (n ++ "/" ++ replace_v tv)) := by
  refine ⟨?_, ?_, ?_⟩
  · intro hn hds
    have hpn : package_name e = package_name_unset := by
      simp [package_name, getenv, hn]
    simp [resolve_coordinate, reference_eq e tv htv, shared_guard, hds, hpn]
  · intro hn hds
    have hpn : package_name e = package_name_unset := by
      simp [package_name, getenv, hn]
    have hguard : shared_guard e = .ok () := by
      simp [shared_guard, hds]
    simp [resolve_coordinate, reference_eq e tv htv, hguard, hpn]
  · intro n hn hne
    have hpn : package_name e = n := by
      simp [package_name, getenv, hn]
    have hguard : shared_guard e = .ok () := by
      simp [shared_guard, hpn, hne]
    simp [resolve_coordinate, reference_eq e tv htv, hguard, hpn]

/-- C3 (witness): the amended statement at concrete environments — unset
name with flag "True" fails, unset name with flag "False" succeeds with
the sentinel, explicit name "entt" with flag "True" succeeds. -/
theorem c3_witness :
    resolve_coordinate ⟨some "v1.0.0", none, none, some "True"⟩
      = .error (.raised shared_guard_message) ∧
    resolve_coordinate ⟨some "v1.0.0", none, none, some "False"⟩
      = .ok (package_name_unset ++ "/" ++ replace_v "v1.0.0") ∧
    resolve_coordinate ⟨some "v1.0.0", none, some "entt", some "True"⟩
      = .ok ("entt" ++ "/" ++ replace_v "v1.0.0") :=
  ⟨(c3_sentinel_guard ⟨some "v1.0.0", none, none, some "True"⟩ "v1.0.0" rfl).1 rfl rfl,
   (c3_sentinel_guard ⟨some "v1.0.0", none, none, some "False"⟩ "v1.0.0" rfl).2.1 rfl rfl,
   (c3_sentinel_guard ⟨some "v1.0.0", none, some "entt", some "True"⟩ "v1.0.0" rfl).2.2
     "entt" rfl (by decide)⟩

/-! ## C4 — count and order of the filtered matrix -/

/-- With the flag "True" and every configuration carrying the shared
option, the loop produces exactly the order-preserving sublist of
shared=false configurations, each in its 4-element form. -/
theorem filtered_builds_true_eq_filter (pn : String) (m : List BuildConfig)
    (hall : ∀ b ∈ m, (dictGet b.options (pn ++ ":shared")).isSome) :
    filtered_builds "True" pn m =
      .ok ((m.filter (fun b => dictGet b.options (pn ++ ":shared") == some false)).map
        dropReference) := by
  induction m with
  | nil => rfl
  | cons b rest ih =>
    have hb : (dictGet b.options (pn ++ ":shared")).isSome := hall b (by simp)
    obtain ⟨sh, hsh⟩ := Option.isSome_iff_exists.mp hb
    have hrest : ∀ x ∈ rest, (dictGet x.options (pn ++ ":shared")).isSome := by
      intro x hx; exact hall x (by simp [hx])
    have hr : retains "True" pn b = .ok (!sh) := by
      unfold retains
      rw [if_neg (by decide), hsh]
    unfold filtered_builds
    rw [hr, ih hrest]
    cases sh with
    | false => simp [hsh, Except.map]
    | true => simp [hsh]

/-- With every configuration carrying the shared option, the number of
shared=false configurations is the total count minus the number of
shared=true ones. -/
theorem filter_not_shared_length (pn : String) (m : List BuildConfig)
    (hall : ∀ b ∈ m, (dictGet b.options (pn ++ ":shared")).isSome) :
    (m.filter (fun b => dictGet b.options (pn ++ ":shared") == some false)).length =
      m.length -
        (m.filter (fun b => dictGet b.options (pn ++ ":shared") == some true)).length := by
  induction m with
  | nil => rfl
  | cons b rest ih =>
    have hb : (dictGet b.options (pn ++ ":shared")).isSome := hall b (by simp)
    obtain ⟨sh, hsh⟩ := Option.isSome_iff_exists.mp hb
    have hrest : ∀ x ∈ rest, (dictGet x.options (pn ++ ":shared")).isSome := by
      intro x hx; exact hall x (by simp [hx])
    have hle :
        (rest.filter (fun b => dictGet b.options (pn ++ ":shared") == some true)).length ≤
          rest.length := List.length_filter_le _ _
    have ih' := ih hrest
    cases sh with
    | false =>
      have h1 : (dictGet b.options (pn ++ ":shared") == some false) = true := by
        rw [hsh]; rfl
      have h2 : (dictGet b.options (pn ++ ":shared") == some true) = false := by
        rw [hsh]; rfl
      rw [List.filter_cons, List.filter_cons, h1, h2]
      simp only [Bool.false_eq_true, if_true, if_false, List.length_cons]
      omega
    | true =>
      have h1 : (dictGet b.options (pn ++ ":shared") == some false) = false := by
        rw [hsh]; rfl
      have h2 : (dictGet b.options (pn ++ ":shared") == some true) = true := by
        rw [hsh]; rfl
      rw [List.filter_cons, List.filter_cons, h1, h2]
      simp only [Bool.false_eq_true, if_true, if_false, List.length_cons]
      omega

/-- C4: with the flag "True" and the shared option present everywhere, a
matrix of n configurations of which exactly k are shared=true filters to
exactly n − k configurations, and the retained ones are the
order-preserving sublist (List.filter) of the shared=false
configurations. -/
theorem c4_filter_count_order (pn : String) (m : List BuildConfig)
    (hall : ∀ b ∈ m, (dictGet b.options (pn ++ ":shared")).isSome)
    (k : Nat)
    (hk : k = (m.filter (fun b => dictGet b.options (pn ++ ":shared") == some true)).length) :
    filtered_builds "True" pn m =
      .ok ((m.filter (fun b => dictGet b.options (pn ++ ":shared") == some false)).map
        dropReference) ∧
    ((m.filter (fun b => dictGet b.options (pn ++ ":shared") == some false)).map
        dropReference).length = m.length - k ∧
    List.Sublist (m.filter (fun b => dictGet b.options (pn ++ ":shared") == some false)) m := by
  subst hk
  refine ⟨filtered_builds_true_eq_filter pn m hall, ?_, List.filter_sublist m⟩
  rw [List.length_map]
  exact filter_not_shared_length pn m hall

/-- Three concrete configurations for package "p", the middle one
shared=true. -/
def cfgsC4 : List BuildConfig :=
  [⟨[("os", "Linux")], [("p:shared", false)], [], [], "p/1.0"⟩,
   ⟨[("os", "Linux")], [("p:shared", true)], [], [], "p/1.0"⟩,
   ⟨[("os", "Macos")], [("p:shared", false)], [], [], "p/1.0"⟩]

/-- C4 (witness): the count/order statement on a 3-element matrix with
k = 1 shared configuration. -/
theorem c4_witness :
    filtered_builds "True" "p" cfgsC4 =
      .ok ((cfgsC4.filter
        (fun b => dictGet b.options ("p" ++ ":shared") == some false)).map dropReference) ∧
    ((cfgsC4.filter
        (fun b => dictGet b.options ("p" ++ ":shared") == some false)).map
        dropReference).length = cfgsC4.length - 1 ∧
    List.Sublist (cfgsC4.filter
        (fun b => dictGet b.options ("p" ++ ":shared") == some false)) cfgsC4 :=
  c4_filter_count_order "p" cfgsC4 (by decide) 1 (by decide)

/-! ## C5 — missing version source -/

/-- C5 (counterexample): with both version sources unset the script does
abort, but the error is the AttributeError of calling replace on None —
not the specification's descriptive ConfigurationError. -/
theorem c5_counterexample :
    script ⟨none, none, some "entt", some "False"⟩ [] = .error .attributeError ∧
    PyError.isConfigurationError .attributeError = false :=
  ⟨rfl, rfl⟩

/-- C5 (amended): when the mandatory version source is absent, the whole
run fails with the AttributeError before the build matrix is consumed —
the outcome is that same error for every externally generated matrix. -/
theorem c5_missing_version (e : Env) (h : tag_version e = none)
    (items : List BuildConfig) :
    script e items = .error .attributeError := by
  simp [script, resolve_coordinate, reference, package_version, h, Except.map]

/-- C5 (witness): the amended statement on a concrete environment and a
nonempty generated matrix. -/
theorem c5_witness :
    script ⟨none, none, some "entt", none⟩
      [⟨[("os", "Linux")], [("entt:shared", true)], [], [], "entt/1.0"⟩]
      = .error .attributeError :=
  c5_missing_version ⟨none, none, some "entt", none⟩ rfl
    [⟨[("os", "Linux")], [("entt:shared", true)], [], [], "entt/1.0"⟩]

/-! ## C10 — flag "False" retains everything -/

/-- A concrete configuration with no shared option at all. -/
def cfgC10 : BuildConfig :=
  ⟨[("arch", "x86_64")], [], [], [], "entt/3.2.0"⟩

/-- C10 (counterexample): with the flag "False" every configuration is
retained, but the filtered matrix does not equal the generated matrix:
each retained element is the 4-element form, whose component sequence
lacks the reference component of the generated 5-tuple. -/
theorem c10_counterexample :
    filtered_builds "False" "entt" [cfgC10] = .ok [dropReference cfgC10] ∧
    [dropReference cfgC10].map FilteredConfig.components ≠
      [cfgC10].map BuildConfig.components := by
  refine ⟨rfl, by decide⟩

/-- C10 (amended): with the flag exactly "False" the loop retains every
configuration in order as its 4-element form, for every matrix — in
particular no option lookup is evaluated, so no lookup failure can occur
even when a configuration has no shared option for the package. -/
theorem c10_false_flag_retains_all (pn : String) (m : List BuildConfig) :
    filtered_builds "False" pn m = .ok (m.map dropReference) := by
  induction m with
  | nil => rfl
  | cons b rest ih =>
    unfold filtered_builds
    rw [show retains "False" pn b = .ok true from rfl, ih]
    rfl

/-! ## The retention pass and the loop -/

/-- The loop is the retention pass followed by the per-element projection
to the 4-element form. -/
theorem filtered_builds_eq_retention (ds pn : String) (m : List BuildConfig) :
    filtered_builds ds pn m = (applyRetention ds pn m).map (List.map dropReference) := by
  induction m with
  | nil => rfl
  | cons b rest ih =>
    unfold filtered_builds applyRetention
    cases retains ds pn b with
    | error err => rfl
    | ok keep =>
      cases keep
      · exact ih
      · rw [ih]
        cases applyRetention ds pn rest <;> rfl

/-- Every configuration kept by the retention pass comes from the input
matrix. -/
theorem applyRetention_mem (ds pn : String) (m l : List BuildConfig)
    (h : applyRetention ds pn m = .ok l) : ∀ b ∈ l, b ∈ m := by
  induction m generalizing l with
  | nil =>
    unfold applyRetention at h
    cases h
    intro b hb
    exact absurd hb (List.not_mem_nil b)
  | cons b rest ih =>
    unfold applyRetention at h
    cases hr : retains ds pn b with
    | error err => rw [hr] at h; cases h
    | ok keep =>
      rw [hr] at h
      cases keep
      · intro x hx
        exact List.mem_cons_of_mem b (ih l h x hx)
      · simp only [Except.map] at h
        cases ha : applyRetention ds pn rest with
        | error err => rw [ha] at h; cases h
        | ok l' =>
          rw [ha] at h
          simp only [Except.map] at h
          cases h
          intro x hx
          rcases List.mem_cons.mp hx with hx | hx
          · subst hx; exact List.mem_cons_self _ _
          · exact List.mem_cons_of_mem _ (ih l' ha x hx)

/-! ## C6 — retained configurations are passed on -/

/-- A concrete configuration with every component populated. -/
def cfgC6 : BuildConfig :=
  ⟨[("os", "Linux"), ("build_type", "Release")], [("entt:shared", false)],
   [("CC", "gcc")], ["cmake_installer/3.x"], "entt/3.2.0"⟩

/-- C6 (counterexample): the claim lists the reference among the
components preserved for each retained element, but the loop appends only
the 4-element list, so the retained element's component sequence differs
from the generated configuration's (the reference component is gone). -/
theorem c6_counterexample :
    filtered_builds "False" "entt" [cfgC6] = .ok [dropReference cfgC6] ∧
    (dropReference cfgC6).components ≠ cfgC6.components := by
  refine ⟨rfl, by decide⟩

/-- C6 (amended): every element of a successful filter output comes from
a configuration of the generated matrix whose settings, options,
environment variables and build requirements it carries unchanged; only
the reference component is dropped.  Filtering never mutates these
components. -/
theorem c6_components_preserved (ds pn : String) (m : List BuildConfig)
    (l : List FilteredConfig) (h : filtered_builds ds pn m = .ok l) :
    ∀ f ∈ l, ∃ b ∈ m, f.settings = b.settings ∧ f.options = b.options ∧
      f.env_vars = b.env_vars ∧ f.build_requires = b.build_requires := by
  rw [filtered_builds_eq_retention] at h
  cases ha : applyRetention ds pn m with
  | error err => rw [ha] at h; cases h
  | ok l' =>
    rw [ha] at h
    cases h
    intro f hf
    rcases List.mem_map.mp hf with ⟨b, hb, rfl⟩
    exact ⟨b, applyRetention_mem ds pn m l' ha b hb, rfl, rfl, rfl, rfl⟩

/-- C6 (witness): the amended statement at a concrete matrix and retained
element. -/
theorem c6_witness :
    ∃ b ∈ [cfgC6], (dropReference cfgC6).settings = b.settings ∧
      (dropReference cfgC6).options = b.options ∧
      (dropReference cfgC6).env_vars = b.env_vars ∧
      (dropReference cfgC6).build_requires = b.build_requires :=
  c6_components_preserved "False" "entt" [cfgC6] [dropReference cfgC6] rfl
    (dropReference cfgC6) (by simp)

/-! ## C7 — idempotence of the retention filter -/

/-- C7: the retention pass is idempotent — running it on its own output
changes nothing (stated with bind so that an erroring pass is covered
too: the error is simply propagated). -/
theorem c7_filter_idempotent (ds pn : String) (m : List BuildConfig) :
    (applyRetention ds pn m).bind (applyRetention ds pn) = applyRetention ds pn m := by
  induction m with
  | nil => rfl
  | cons b rest ih =>
    unfold applyRetention
    cases hr : retains ds pn b with
    | error err => rfl
    | ok keep =>
      cases keep
      · exact ih
      · cases ha : applyRetention ds pn rest with
        | error err => rfl
        | ok l =>
          have hl : applyRetention ds pn l = .ok l := by
            rw [ha] at ih
            exact ih
          show applyRetention ds pn (b :: l) = .ok (b :: l)
          unfold applyRetention
          rw [hr, hl]
          rfl

/-! ## C8 — name fallback and coordinate composition -/

/-- C8: the package name is the explicitly configured value when one is
supplied (even the empty string) and the sentinel otherwise, and when the
version source is present the composed coordinate is exactly the name, a
slash, and the resolved version. -/
theorem c8_name_and_coordinate (e : Env) (tv : String)
    (htv : tag_version e = some tv) :
    (∀ n, e.CONAN_PACKAGE_NAME = some n → package_name e = n) ∧
    (e.CONAN_PACKAGE_NAME = none → package_name e = package_name_unset) ∧
    reference e = .ok (package_name e ++ "/" ++ replace_v tv) := by
  refine ⟨?_, ?_, reference_eq e tv htv⟩
  · intro n hn
    simp [package_name, getenv, hn]
  · intro hn
    simp [package_name, getenv, hn]

/-- C8 (witness): name fallback and composition on a concrete
environment with an explicit name. -/
theorem c8_witness :
    package_name ⟨some "v3.2.0", none, some "entt", none⟩ = "entt" ∧
    reference ⟨some "v3.2.0", none, some "entt", none⟩ =
      .ok (package_name ⟨some "v3.2.0", none, some "entt", none⟩ ++ "/" ++
        replace_v "v3.2.0") :=
  ⟨(c8_name_and_coordinate ⟨some "v3.2.0", none, some "entt", none⟩ "v3.2.0" rfl).1
      "entt" rfl,
   (c8_name_and_coordinate ⟨some "v3.2.0", none, some "entt", none⟩ "v3.2.0" rfl).2.2⟩

/-! ## C9 — non-boolean flag strings -/

/-- C9: a flag string other than "True" and "False" (such as "true") with
the sentinel package name passes the guard, yet for every configuration
the loop's condition goes on to evaluate the shared-option lookup keyed
by the sentinel name, so a configuration lacking that key makes the loop
fail with the KeyError. -/
theorem c9_nonboolean_flag (s : String) (hT : s ≠ "True") (hF : s ≠ "False")
    (e : Env) (hds : e.CONAN_DISABLE_SHARED_BUILD = some s)
    (hn : e.CONAN_PACKAGE_NAME = none) (tv : String)
    (htv : tag_version e = some tv) :
    resolve_coordinate e = .ok (package_name_unset ++ "/" ++ replace_v tv) ∧
    (∀ b : BuildConfig, retains (disable_shared e) (package_name e) b =
      (match dictGet b.options (package_name_unset ++ ":shared") with
       | none => .error .keyError
       | some sh => .ok (!sh))) ∧
    (∀ b m, dictGet b.options (package_name_unset ++ ":shared") = none →
      filtered_builds (disable_shared e) (package_name e) (b :: m) =
        .error .keyError) := by
  have hdse : disable_shared e = s := by
    simp [disable_shared, getenv, hds]
  have hpn : package_name e = package_name_unset := by
    simp [package_name, getenv, hn]
  have hguard : shared_guard e = .ok () := by
    simp [shared_guard, hdse, hT]
  refine ⟨?_, ?_, ?_⟩
  · simp [resolve_coordinate, reference_eq e tv htv, hguard, hpn]
  · intro b
    rw [hdse, hpn]
    unfold retains
    rw [if_neg hF]
  · intro b m hmiss
    have hr : retains (disable_shared e) (package_name e) b = .error .keyError := by
      rw [hdse, hpn]
      unfold retains
      rw [if_neg hF, hmiss]
    unfold filtered_builds
    rw [hr]

/-- A concrete configuration with no shared option for any package. -/
def cfgC9 : BuildConfig := ⟨[("os", "Linux")], [], [], [], "entt/1.0"⟩

/-- C9 (witness): the flag "true" with an unset name — the guard passes
and the loop fails with the KeyError on a configuration lacking the
sentinel-keyed shared option. -/
theorem c9_witness :
    resolve_coordinate ⟨some "v1.0.0", none, none, some "true"⟩
      = .ok (package_name_unset ++ "/" ++ replace_v "v1.0.0") ∧
    filtered_builds
        (disable_shared ⟨some "v1.0.0", none, none, some "true"⟩)
        (package_name ⟨some "v1.0.0", none, none, some "true"⟩)
        [cfgC9] = .error .keyError := by
  have h := c9_nonboolean_flag "true" (by decide) (by decide)
    ⟨some "v1.0.0", none, none, some "true"⟩ rfl rfl "v1.0.0" rfl
  exact ⟨h.1, h.2.2 cfgC9 [] rfl⟩
